import Mathlib

/-!
# Verification of the `apodo` streaming multipart/form-data decoder

This file gives a shallow embedding, in Lean 4, of the Cython module
`gato/multipart/parser.pyx` (classes `UploadedFile`, `MemoryFile`, `DiskFile`,
`SmartFile`, `MultipartParser`), and proves or refutes the specification
claims about it.

Modelling conventions, chosen to stay faithful to CPython semantics:

* byte strings (`bytes` / `bytearray`) are `List Nat`;
* Python slicing (`l[a:b]`, negative indices, clamping) is modelled by
  `sliceIdx` / `pySlice` / `pyTakeInt` / `pyDropInt` below;
* `bytearray.find` is `pyFind`, returning `Option Nat` instead of the `-1`
  sentinel (`none` stands for `-1`; call sites translate the comparison
  `position != -1` accordingly);
* `bytes.split(sep)` for a one-byte separator is `pySplit`;
* `bytes.strip()` is `pyStrip` (Python strips the whitespace bytes
  9, 10, 11, 12, 13 and 32);
* exceptions are modelled with `Except PyErr`;  raising discards the
  post-mutation state (no claim needs the state abandoned by a raise);
* `bytes.decode()` / `str` values are kept as the underlying byte list
  (all inputs in the claims are ASCII, where UTF-8 decoding is the
  identity);
* the filesystem touched by `DiskFile` is an association list `Fs` from
  path to content, threaded explicitly; `uuid.uuid4()` is an explicit
  `fresh` argument to the `DiskFile` constructor.

The sources declare the classes with `cdef`; the attribute declaration
(`.pxd`) file for this module is not part of the sources, so attributes
assigned in `__init__` are modelled as structure fields (as for a plain
Python class).  Two attribute names are *read* but never assigned anywhere
in the module: `DiskFile.temporary_path` (read by `__del__`; `__init__`
assigns `temp_path`) and `DiskFile.file` (read by `DiskFile.read`).
Whether or not a missing `.pxd` declares those names, reading them cannot
yield the written data: the access raises `AttributeError` (undeclared /
unassigned attribute) or, at best, yields an unset `None`.  Both reads are
therefore modelled as raising `AttributeError`.
-/

namespace Gato

/-- ASCII bytes of a string (all strings used here are ASCII, where
`Char.toNat` agrees with the UTF-8 byte). -/
def ascii (s : String) : List Nat :=
  s.data.map Char.toNat

/-- Python `bytes.strip()` whitespace set: `b" \t\n\r\x0b\x0c"`. -/
def pySpace (b : Nat) : Bool :=
  b == 32 || (9 ≤ b && b ≤ 13)

/-- Python `bytes.strip()` (both ends). -/
def pyStrip (l : List Nat) : List Nat :=
  ((l.dropWhile pySpace).reverse.dropWhile pySpace).reverse

/-- Normalise a Python slice bound relative to a list of length `n`:
negative indices count from the end, and the result is clamped into
`[0, n]`. -/
def sliceIdx (n : Nat) (i : Int) : Nat :=
  if i < 0 then (i + n).toNat else min i.toNat n

/-- Python `l[:j]` for a possibly negative `j`. -/
def pyTakeInt (l : List Nat) (j : Int) : List Nat :=
  l.take (sliceIdx l.length j)

/-- Python `l[j:]` for a possibly negative `j`. -/
def pyDropInt (l : List Nat) (j : Int) : List Nat :=
  l.drop (sliceIdx l.length j)

/-- Python `l[a:b]`. -/
def pySlice (l : List Nat) (a b : Int) : List Nat :=
  (l.take (sliceIdx l.length b)).drop (sliceIdx l.length a)

/-- `hasPre pat l` decides whether `pat` is a leading run of `l`. -/
def hasPre : List Nat → List Nat → Bool
  | [], _ => true
  | _ :: _, [] => false
  | a :: pt, b :: lt => a == b && hasPre pt lt

/-- Python `haystack.find(pat)`: index of the first occurrence of `pat`,
`none` for Python's `-1`. -/
def pyFind (l pat : List Nat) : Option Nat :=
  if hasPre pat l then some 0
  else
    match l with
    | [] => none
    | _ :: t => (pyFind t pat).map (· + 1)

/-- Python `bytes.split(sep)` for a single-byte separator `sep`. -/
def pySplit (sep : Nat) : List Nat → List (List Nat)
  | [] => [[]]
  | b :: t =>
    if b = sep then [] :: pySplit sep t
    else
      match pySplit sep t with
      | h :: r => (b :: h) :: r
      | [] => [[b]]

/-- Association-list lookup (Python `dict` access / `.get`). -/
def alookup {α : Type} (l : List (List Nat × α)) (k : List Nat) : Option α :=
  match l with
  | [] => none
  | (k', v) :: t => if k' = k then some v else alookup t k

/-- Association-list update with Python `dict` semantics: an existing key
keeps its position, a new key is appended at the end. -/
def aupsert {α : Type} (l : List (List Nat × α)) (k : List Nat) (v : α) :
    List (List Nat × α) :=
  match l with
  | [] => [(k, v)]
  | (k', v') :: t => if k' = k then (k, v) :: t else (k', v') :: aupsert t k v

/-- Python exceptions raised (or raisable) by the module.  `fuel` is the
marker returned by the loop interpreter when its step budget runs out; the
budget chosen by `MultipartParser.feed` is always sufficient, and no
theorem below ever equates a result with `.error .fuel`. -/
inductive PyErr : Type
  | valueError      -- `raise ValueError("Missing boundaries.")`
  | typeError       -- e.g. unexpected keyword argument
  | attributeError  -- access to an absent attribute (including `None.write`)
  | indexError      -- `value[0]` on an empty bytearray
  | keyError        -- unreachable guard in the key-indexed write-back
  | fileNotFoundError
  | fuel
  deriving DecidableEq, Repr

/-- The filesystem seen by `DiskFile`: path to content. -/
abbrev Fs : Type := List (String × List Nat)

/-- Filesystem lookup. -/
def fsGet (fs : Fs) (p : String) : Option (List Nat) :=
  match fs with
  | [] => none
  | (q, c) :: t => if q = p then some c else fsGet t p

/-- Filesystem write (create or overwrite). -/
def fsSet (fs : Fs) (p : String) (c : List Nat) : Fs :=
  match fs with
  | [] => [(p, c)]
  | (q, c') :: t => if q = p then (p, c) :: t else (q, c') :: fsSet t p c

/-- Filesystem removal. -/
def fsRemove (fs : Fs) (p : String) : Fs :=
  match fs with
  | [] => []
  | (q, c) :: t => if q = p then t else (q, c) :: fsRemove t p

/-- `MemoryFile`: a growable byte buffer plus a read cursor.  The source's
`__init__` assigns `self.file` and `self.pointer`; `filename` comes from
the `UploadedFile` base class. -/
structure MemoryFile : Type where
  filename : Option (List Nat)
  file : List Nat
  pointer : Int
  deriving DecidableEq, Repr

/-- `MemoryFile(filename=..., file=...)`; `file or bytearray()` makes an
absent (or empty, hence falsy) argument an empty buffer. -/
def MemoryFile.init (filename : Option (List Nat)) (file : Option (List Nat)) :
    MemoryFile :=
  { filename := filename
    file := file.getD []
    pointer := 0 }

/-- `MemoryFile.seek`. -/
def MemoryFile.seek (m : MemoryFile) (position : Int) : MemoryFile :=
  { m with pointer := position }

/-- `MemoryFile.write`: extend the buffer, advance the cursor by the data
size. -/
def MemoryFile.write (m : MemoryFile) (data : List Nat) : MemoryFile :=
  { m with file := m.file ++ data, pointer := m.pointer + data.length }

/-- `MemoryFile.read(count)`.  Python's `if count:` distinguishes `count = 0`
(read all, cursor to end) from any non-zero `count` (slice
`file[pointer : pointer + count]` and advance the cursor by `count` —
by `count`, not by the number of bytes actually returned). -/
def MemoryFile.read (m : MemoryFile) (count : Int) :
    List Nat × MemoryFile :=
  if count ≠ 0 then
    (pySlice m.file m.pointer (m.pointer + count),
      { m with pointer := m.pointer + count })
  else
    (pyDropInt m.file m.pointer, { m with pointer := m.file.length })

/-- `MemoryFile.save`: write the whole buffer to `destination`. -/
def MemoryFile.save (m : MemoryFile) (destination : String) (fs : Fs) : Fs :=
  fsSet fs destination m.file

/-- `DiskFile`: a uniquely named temp file plus cursor.  `__init__` assigns
`temp_path`, `pointer` and `delete_on_exit`. -/
structure DiskFile : Type where
  filename : Option (List Nat)
  temp_path : String
  pointer : Int
  delete_on_exit : Bool
  deriving DecidableEq, Repr

/-- Stand-in for `tempfile.gettempdir()`. -/
def defaultTempDir : String := "/tmp"

/-- `DiskFile.__init__`: `temp_path = os.path.join(temp_directory or
gettempdir(), str(uuid.uuid4()))`; the uuid is the explicit `fresh`
argument. -/
def DiskFile.init (filename : Option (List Nat)) (temp_directory : Option String)
    (fresh : String) : DiskFile :=
  { filename := filename
    temp_path := (temp_directory.getD defaultTempDir) ++ "/" ++ fresh
    pointer := 0
    delete_on_exit := true }

/-- `__del__` reads `self.temporary_path`, but no code in the module ever
assigns that attribute (`__init__` assigns `temp_path`), so the read fails
before `os.remove` runs; the `except FileNotFoundError` clause does not
catch it.  The temp file named by `temp_path` is never removed. -/
def DiskFile.temporary_path (_ : DiskFile) : Except PyErr String :=
  .error .attributeError

/-- `DiskFile.__del__`: remove the temp file if `delete_on_exit` is still
true, swallowing only `FileNotFoundError`.  Returns the filesystem after
teardown. -/
def DiskFile.del (d : DiskFile) (fs : Fs) : Except PyErr Fs :=
  if d.delete_on_exit = true then do
    let p ← d.temporary_path
    pure (fsRemove fs p)
  else
    pure fs

/-- `DiskFile.seek`. -/
def DiskFile.seek (d : DiskFile) (position : Int) : DiskFile :=
  { d with pointer := position }

/-- `DiskFile.write`: open `temp_path` in append mode ("ab+" creates the
file when missing), append, advance the cursor. -/
def DiskFile.write (d : DiskFile) (data : List Nat) (fs : Fs) :
    DiskFile × Fs :=
  ({ d with pointer := d.pointer + data.length },
    fsSet fs d.temp_path ((fsGet fs d.temp_path).getD [] ++ data))

/-- `DiskFile.read` slices `self.file[...]` — an attribute that is never
assigned on `DiskFile` (the body was copied from `MemoryFile.read`), so
every call fails instead of returning data from the temp file. -/
def DiskFile.read (_ : DiskFile) (_ : Int) : Except PyErr (List Nat) :=
  .error .attributeError

/-- `DiskFile.save`: `shutil.move(temp_path, destination)` then disable
destructor deletion. -/
def DiskFile.save (d : DiskFile) (destination : String) (fs : Fs) :
    Except PyErr (DiskFile × Fs) :=
  match fsGet fs d.temp_path with
  | none => .error .fileNotFoundError
  | some content =>
    .ok ({ d with delete_on_exit := false },
      fsSet (fsRemove fs d.temp_path) destination content)

/-- `SmartFile`: in-memory buffering with (intended) spill to disk. -/
structure SmartFile : Type where
  filename : Option (List Nat)
  temp_dir : Option String
  in_memory_limit : Nat
  in_memory : Bool
  buffer : List Nat
  pointer : Nat
  engine : Option DiskFile
  deriving DecidableEq, Repr

/-- The default of `SmartFile.__init__`'s `in_memory_limit` parameter
(`10 * 1024 * 1024`), used whenever a caller omits the argument. -/
def smartFileDefaultLimit : Nat := 10 * 1024 * 1024

/-- `SmartFile.__init__`. -/
def SmartFile.init (filename : Option (List Nat)) (temp_dir : Option String)
    (in_memory_limit : Nat) : SmartFile :=
  { filename := filename
    temp_dir := temp_dir
    in_memory_limit := in_memory_limit
    in_memory := true
    buffer := []
    pointer := 0
    engine := none }

/-- `SmartFile.write(data)`.  On the threshold-crossing call the source runs
`DiskFile(filename=self.filename, temporary_dir=self.temp_dir)`, but
`DiskFile.__init__`'s parameters are `(filename, temp_directory)`: the call
raises `TypeError` (unexpected keyword argument `temporary_dir`) before any
`DiskFile` exists, before the buffer is flushed and before `in_memory` is
cleared.  In the not-`in_memory` branch (unreachable from an initial
`SmartFile`, since the crossing always raises) the source calls
`self.engine.write(data)` without `await`; `DiskFile.write` is an
`async def`, so the coroutine is created and dropped and nothing is
written. -/
def SmartFile.write (sf : SmartFile) (data : List Nat) :
    Except PyErr SmartFile :=
  if sf.in_memory then
    if sf.in_memory_limit < sf.buffer.length + data.length then
      .error .typeError
    else
      .ok { sf with
        buffer := sf.buffer ++ data
        pointer := sf.pointer + data.length }
  else
    match sf.engine with
    | some _ => .ok sf
    | none => .error .attributeError

/-- The value a finished field presents to `consume()`: decoded text, an
in-memory file, or a disk-backed file. -/
inductive UploadValue : Type
  | text (s : List Nat)
  | memory (f : MemoryFile)
  | disk (f : DiskFile)
  deriving DecidableEq, Repr

/-- Python truthiness of the (decoded) optional filename: `None` and the
empty string are falsy. -/
def filenameTruthy (f : Option (List Nat)) : Bool :=
  match f with
  | none => false
  | some s => !s.isEmpty

/-- `SmartFile.consume()`: a `MemoryFile` for an in-memory field with a
(truthy) filename, the decoded buffer for an in-memory field without one,
otherwise the rewound `DiskFile` engine. -/
def SmartFile.consume (sf : SmartFile) : Except PyErr UploadValue :=
  if sf.in_memory && filenameTruthy sf.filename then
    .ok (.memory { filename := sf.filename, file := sf.buffer, pointer := 0 })
  else if sf.in_memory then
    .ok (.text sf.buffer)
  else
    match sf.engine with
    | some e => .ok (.disk { e with pointer := 0 })
    | none => .error .attributeError

/-- The three compile-time status constants of the parser. -/
inductive PStatus : Type
  | expectingBoundary
  | expectingContentHeaders
  | expectingBuffer
  deriving DecidableEq, Repr

/-- One registered field: the parsed `Content-Disposition` attributes and
the `SmartFile` receiving the field body.  In Python `current_buffer` and
the stored tuple hold the *same* `SmartFile` object; here the parser's
`current_buffer` is modelled as the field's key and writes go through
`values`, which is observationally identical. -/
abbrev FieldEntry : Type := List (List Nat × List Nat) × SmartFile

/-- `MultipartParser` state. -/
structure MultipartParser : Type where
  data : List Nat
  values : List (List Nat × FieldEntry)
  temp_dir : Option String
  in_memory_threshold : Nat
  start_boundary : List Nat
  boundary_length : Nat
  end_boundary : List Nat
  status : PStatus
  current_buffer : Option (List Nat)
  deriving DecidableEq, Repr

/-- The default of `MultipartParser.__init__`'s `in_memory_threshold`
parameter (`1 * 1024 * 1024`). -/
def parserDefaultThreshold : Nat := 1 * 1024 * 1024

/-- `MultipartParser.__init__`.  Note two verbatim source facts: the body
assigns `self.temp_dir = None` (the `temp_dir` argument is ignored), and
`in_memory_threshold` is stored but never read again anywhere in the
module. -/
def MultipartParser.init (boundary : List Nat) (temp_dir : Option String)
    (in_memory_threshold : Nat) : MultipartParser :=
  { data := []
    values := []
    temp_dir := none
    in_memory_threshold := in_memory_threshold
    start_boundary := [45, 45] ++ boundary
    boundary_length := ([45, 45] ++ boundary).length
    end_boundary := [45, 45] ++ boundary ++ [45, 45] ++ [13, 10]
    status := .expectingBoundary
    current_buffer := none }

/-- `MultipartParser.clean_value`: drop a single leading `%` (37) or `"`
(34); only when the first byte is neither, drop a single trailing one.
`value[0]` on an empty value raises `IndexError`. -/
def MultipartParser.clean_value (value : List Nat) :
    Except PyErr (List Nat) :=
  match value with
  | [] => .error .indexError
  | v0 :: rest =>
    if v0 = 37 ∨ v0 = 34 then .ok rest
    else if (v0 :: rest).getLast (List.cons_ne_nil v0 rest) = 37 ∨
        (v0 :: rest).getLast (List.cons_ne_nil v0 rest) = 34 then
      .ok (v0 :: rest).dropLast
    else
      .ok (v0 :: rest)

/-- The literal `b"Content-Disposition: form-data;"` (31 bytes). -/
def contentDispositionMarker : List Nat :=
  ascii "Content-Disposition: form-data;"

/-- `b"name"` and `b"filename"` as parsed-attribute keys. -/
def nameKey : List Nat := ascii "name"

/-- See `nameKey`. -/
def filenameKey : List Nat := ascii "filename"

/-- Body of `parse_header`'s `for value in values:` loop: strip the
`;`-piece, split it on `=`, and record a key/value pair exactly when the
split gives two pieces. -/
def headerPiece (acc : List (List Nat × List Nat)) (piece : List Nat) :
    Except PyErr (List (List Nat × List Nat)) := do
  let v := pyStrip piece
  match pySplit 61 v with
  | [k, val] => do
    let c ← MultipartParser.clean_value val
    pure (aupsert acc k c)
  | _ => pure acc

/-- `MultipartParser.parse_header`.  Faithful points: the find result `-1`
is still incremented by 31 when the marker is absent (Python then slices
from 30); a `;`-piece is used only when splitting on `=` gives exactly two
pieces; a header block without a `name` attribute leaves the parser
unchanged (in particular `current_buffer` keeps its previous value); the
`SmartFile` is created with `filename` and `temp_dir` only, so it gets the
*default* `in_memory_limit` — the parser's `in_memory_threshold` is not
passed along; an empty `filename` value is falsy, so it is replaced by
`None`. -/
def MultipartParser.parse_header (p : MultipartParser) (header : List Nat) :
    Except PyErr MultipartParser := do
  let position : Int :=
    (match pyFind header contentDispositionMarker with
      | some i => (i : Int)
      | none => -1) + 31
  let header := pyDropInt header position
  let pieces := pySplit 59 (pyStrip header)
  let parsed ← pieces.foldlM headerPiece []
  match alookup parsed nameKey with
  | some nm =>
    let filename := alookup parsed filenameKey
    let fnDecoded : Option (List Nat) :=
      match filename with
      | some f => if f.isEmpty then none else some f
      | none => none
    let sf := SmartFile.init fnDecoded p.temp_dir smartFileDefaultLimit
    pure { p with
      current_buffer := some nm
      values := aupsert p.values nm (parsed, sf) }
  | none => pure p

/-- `await self.current_buffer.write(bs)`: when `current_buffer` is `None`
(after a header block without `name`) the attribute access on `None`
raises; otherwise the write lands in the `SmartFile` shared with `values`.
The `keyError` branch is unreachable: whenever `current_buffer` is set it
is a key of `values` (they are assigned together in `parse_header`). -/
def parserWrite (p : MultipartParser) (bs : List Nat) :
    Except PyErr MultipartParser :=
  match p.current_buffer with
  | none => .error .attributeError
  | some k =>
    match alookup p.values k with
    | none => .error .keyError
    | some (pv, sf) =>
      (sf.write bs).map fun sf' =>
        { p with values := aupsert p.values k (pv, sf') }

/-- Result of one iteration of `feed`'s `while` loop: return from `feed`,
continue looping, or raise. -/
inductive StepRes : Type
  | ret (p : MultipartParser)
  | cont (p : MultipartParser)
  | err (e : PyErr)
  deriving Repr

/-- `b"\r\n\r\n"`. -/
def crlfcrlf : List Nat := [13, 10, 13, 10]

/-- One iteration of the `while pending_data:` loop in
`MultipartParser.feed`, in source order: the loop guard, the comparison
with `end_boundary`, then the three status branches.  `pending_data` is
`p.data`; `parse_header` and the `SmartFile` write never touch it, so the
`del` slices are taken from `p.data`. -/
def step (p : MultipartParser) : StepRes :=
  if p.data = [] then .ret p
  else if p.data = p.end_boundary then .ret p
  else
    match p.status with
    | .expectingBoundary =>
      if p.boundary_length ≤ p.data.length then
        match pyFind p.data p.start_boundary with
        | some pos =>
          .cont { p with
            data := p.data.drop (pos + p.start_boundary.length)
            status := .expectingContentHeaders }
        | none => .err .valueError
      else .ret p
    | .expectingContentHeaders =>
      match pyFind p.data crlfcrlf with
      | some pos =>
        match p.parse_header (p.data.take pos) with
        | .ok p' =>
          .cont { p' with
            data := p.data.drop (pos + 4)
            status := .expectingBuffer }
        | .error e => .err e
      | none => .ret p
    | .expectingBuffer =>
      match pyFind p.data p.start_boundary with
      | some pos =>
        match parserWrite p (pyTakeInt p.data ((pos : Int) - 2)) with
        | .ok p' =>
          .cont { p' with
            data := p.data.drop pos
            current_buffer := none
            status := .expectingBoundary }
        | .error e => .err e
      | none =>
        if p.boundary_length * 40 ≤ p.data.length then
          match parserWrite p (p.data.take (p.data.length - p.boundary_length)) with
          | .ok p' =>
            .ret { p' with
              data := pyDropInt p.data (-(p.boundary_length : Int)) }
          | .error e => .err e
        else .ret p

/-- The `while` loop of `feed`, driven by a step budget.  `feed` always
passes a budget strictly larger than the number of iterations the loop can
make (each iteration either consumes bytes or moves the status down the
order `expectingBuffer > expectingBoundary > expectingContentHeaders`
without growing the data, so `3 * |data| + 3` over-approximates the
iteration count); `.error .fuel` is therefore never the outcome of
`MultipartParser.feed`. -/
def feedLoop : Nat → MultipartParser → Except PyErr MultipartParser
  | 0, _ => .error .fuel
  | f + 1, p =>
    match step p with
    | .ret q => .ok q
    | .err e => .error e
    | .cont q => feedLoop f q

/-- `MultipartParser.feed(data)`: extend the pending buffer and run the
loop to quiescence. -/
def MultipartParser.feed (p : MultipartParser) (chunk : List Nat) :
    Except PyErr MultipartParser :=
  feedLoop (3 * (p.data.length + chunk.length) + 3)
    { p with data := p.data ++ chunk }

/-- `MultipartParser.consume()`: finalize every registered field, in
insertion order. -/
def MultipartParser.consume (p : MultipartParser) :
    Except PyErr (List (List Nat × UploadValue)) :=
  p.values.mapM fun kv => (kv.2.2.consume).map fun v => (kv.1, v)

/-! ## Concrete scenarios used by the claims -/

/-- A fresh parser for boundary `B` with the source's default threshold. -/
def pristine : MultipartParser :=
  MultipartParser.init (ascii "B") none parserDefaultThreshold

/-- Feed a complete body as one chunk, then call `consume()`. -/
def runWhole (w : List Nat) : Except PyErr (List (List Nat × UploadValue)) :=
  pristine.feed w >>= MultipartParser.consume

/-- Feed a complete body as the two chunks `w.take i` and `w.drop i`, then
call `consume()`. -/
def runSplit (w : List Nat) (i : Nat) :
    Except PyErr (List (List Nat × UploadValue)) := do
  let p ← pristine.feed (w.take i)
  let q ← p.feed (w.drop i)
  q.consume

/-- The spec's concrete scenario body for boundary `B`. -/
def c1Body : List Nat :=
  ascii "--B\r\nContent-Disposition: form-data; name=\"field1\"\r\n\r\nhello\r\n--B--\r\n"

/-- A minimal well-formed single-field body for boundary `B` (60 bytes):
one text field named `a` with content `hi`. -/
def scenarioBody : List Nat :=
  ascii "--B\r\nContent-Disposition: form-data; name=\"a\"\r\n\r\nhi\r\n--B--\r\n"

/-- What the parser actually produces for `scenarioBody` (the field key
keeps the trailing quote, see `MultipartParser.clean_value`). -/
def scenarioMapping : List (List Nat × UploadValue) :=
  [(ascii "a\x22", .text (ascii "hi"))]

/-- `scenarioBody` preceded by the RFC 2046 preamble `X` (terminated by
CRLF).  Its first three bytes `X\r\n` are at least as long as the start
marker `--B` yet do not contain it. -/
def preBody : List Nat := ascii "X\r\n" ++ scenarioBody

/-- A complete header block whose `Content-Disposition` carries no `name`
attribute. -/
def c5chunk : List Nat :=
  ascii "--B\r\nContent-Disposition: form-data; x=1\r\n\r\n"

/-- A complete header block for a named field, with no body bytes yet. -/
def c5chunkNamed : List Nat :=
  ascii "--B\r\nContent-Disposition: form-data; name=\"a\"\r\n\r\nhi"

/-- The parser state after feeding `c5chunkNamed` into a fresh parser
(mid-field: a body is being buffered). -/
def c5P : MultipartParser :=
  (pristine.feed c5chunkNamed).toOption.getD pristine

/-- A parser constructed with an explicit temp directory and an explicit
in-memory threshold, to observe which of them reach the per-field
`SmartFile`. -/
def c8P : MultipartParser :=
  MultipartParser.init (ascii "B") (some "/custom") 5

/-- A header block registering a file field (`name` and `filename`). -/
def c8chunk : List Nat :=
  ascii "--B\r\nContent-Disposition: form-data; name=\"f\"; filename=\"x\"\r\n\r\n"

/-- The `(temp_dir, in_memory_limit)` of the `SmartFile` the parser built
for the field fed by `c8chunk`. -/
def c8info : Except PyErr (Option (Option String × Nat)) :=
  (c8P.feed c8chunk).map fun q =>
    (alookup q.values (ascii "f\x22")).map fun e =>
      (e.2.temp_dir, e.2.in_memory_limit)

/-- A standalone `SmartFile` for a named file with in-memory threshold 4
(small on purpose: the threshold is configurable and the arithmetic is the
same at any size). -/
def c3sf : SmartFile := SmartFile.init (some (ascii "a.txt")) none 4

/-- A `DiskFile` as built by the constructor, for the teardown claim. -/
def c7d : DiskFile := DiskFile.init none none "u1"

/-- A filesystem in which `c7d`'s temp file exists with some content. -/
def c7fs : Fs := [(c7d.temp_path, [1, 2, 3])]

/-- The parser state after feeding the nameless-part header block
`c5chunk` into a fresh parser. -/
def c5Bad : MultipartParser :=
  (pristine.feed c5chunk).toOption.getD pristine

/-- A standalone `SmartFile` for a named file with threshold 4, used to
observe the threshold-crossing write. -/
def c4sf : SmartFile := SmartFile.init (some (ascii "f")) none 4

/-- `c4sf` after a successful 3-byte in-memory write. -/
def c4sf1 : SmartFile := { c4sf with buffer := ascii "abc", pointer := 3 }

/-- `c7d` after `save`: destructor-driven deletion disabled. -/
def c7dSaved : DiskFile := { c7d with delete_on_exit := false }

/-- The filesystem after `c7d.save "/dest"`: content moved. -/
def c7fsSaved : Fs :=
  fsSet (fsRemove c7fs c7d.temp_path) "/dest" [1, 2, 3]

/-- A well-formed, preamble-free single-field body whose 118-byte content
plus the `\r\n--` of the terminating delimiter make 122 pending bytes, at
least 40 times the marker length — enough to trigger the large-buffer
flush when split right there. -/
def flushBody : List Nat :=
  ascii "--B\r\nContent-Disposition: form-data; name=\"a\"\r\n\r\n" ++
  List.replicate 118 97 ++ ascii "\r\n--B--\r\n"

/-- The mapping `flushBody` produces when fed as a single chunk: the
field content, exactly. -/
def flushMapWhole : List (List Nat × UploadValue) :=
  [(ascii "a\x22", .text (List.replicate 118 97))]

/-- The mapping `flushBody` produces when split after its first 171
bytes: the flush writes the field's trailing `\r` and then the
`position - 2` trim underflows into a Python negative slice, so CRLF and
marker bytes end up inside the field value. -/
def flushMapSplit : List (List Nat × UploadValue) :=
  [(ascii "a\x22", .text (List.replicate 118 97 ++ ascii "\r\n--B--\r"))]

/-! ## State predicates and reachability -/

/-- The parser fields that `feed` never writes. -/
def frameEq (p q : MultipartParser) : Prop :=
  q.temp_dir = p.temp_dir ∧
  q.in_memory_threshold = p.in_memory_threshold ∧
  q.start_boundary = p.start_boundary ∧
  q.boundary_length = p.boundary_length ∧
  q.end_boundary = p.end_boundary

/-- Coherence of the boundary fields, as established by `__init__`:
`boundary_length` is the length of `start_boundary = b"--" + boundary`,
and `end_boundary` extends it with `b"--\r\n"`. -/
def Coh (p : MultipartParser) : Prop :=
  2 ≤ p.boundary_length ∧
  p.boundary_length = p.start_boundary.length ∧
  p.end_boundary = p.start_boundary ++ [45, 45, 13, 10]

/-- The configurations at which the `feed` loop returns to its caller:
no pending data, pending data equal to the end marker, or an await point
of the current status. -/
def Quiescent (p : MultipartParser) : Prop :=
  p.data = [] ∨
  p.data = p.end_boundary ∨
  (p.status = .expectingBoundary ∧ p.data.length < p.boundary_length) ∨
  (p.status = .expectingContentHeaders ∧ pyFind p.data crlfcrlf = none) ∨
  (p.status = .expectingBuffer ∧ pyFind p.data p.start_boundary = none ∧
    p.data.length < p.boundary_length * 40)

/-- One direction of the spec's `current_buffer` invariant: the reference
is set *only while* the parser is in `EXPECTING_BUFFER`. -/
def CurInv (p : MultipartParser) : Prop :=
  ∀ k, p.current_buffer = some k → p.status = .expectingBuffer

/-- Parser states reachable from a freshly constructed parser by `feed`
calls that returned normally. -/
inductive Reachable : MultipartParser → Prop
  | base (boundary : List Nat) (temp_dir : Option String) (thr : Nat) :
      Reachable (MultipartParser.init boundary temp_dir thr)
  | next (p q : MultipartParser) (chunk : List Nat) :
      Reachable p → p.feed chunk = .ok q → Reachable q

/-- The reflexive-transitive trace of loop iterations (`cont` steps). -/
inductive StepStar : MultipartParser → MultipartParser → Prop
  | refl (p : MultipartParser) : StepStar p p
  | head (p q r : MultipartParser) :
      step p = .cont q → StepStar q r → StepStar p r

end Gato

deriving instance DecidableEq for Except

namespace Gato

/-! ## Library lemmas about the Python-semantics helpers -/

theorem hasPre_append (pat rest : List Nat) : hasPre pat (pat ++ rest) = true := by
  induction pat with
  | nil => rfl
  | cons a t ih => simp [hasPre, ih]

theorem pyFind_self_append (pat rest : List Nat) :
    pyFind (pat ++ rest) pat = some 0 := by
  unfold pyFind
  rw [hasPre_append]
  simp

theorem pyFind_cons_none {a : Nat} {t pat : List Nat}
    (h : pyFind (a :: t) pat = none) : pyFind t pat = none := by
  unfold pyFind at h
  split at h
  · exact absurd h (by simp)
  · cases hf : pyFind t pat with
    | none => rfl
    | some v => simp [hf] at h

theorem pyFind_drop_none {l pat : List Nat} (h : pyFind l pat = none)
    (k : Nat) : pyFind (l.drop k) pat = none := by
  induction k generalizing l with
  | zero => simpa using h
  | succ n ih =>
    cases l with
    | nil => simpa using h
    | cons a t =>
      rw [List.drop_succ_cons]
      exact ih (pyFind_cons_none h)

theorem sliceIdx_nat (n i : Nat) : sliceIdx n (i : Int) = min i n := by
  unfold sliceIdx
  simp

theorem pySlice_nat (f : List Nat) (i c : Nat) :
    pySlice f (i : Int) ((i : Int) + (c : Int)) = (f.drop i).take c := by
  unfold pySlice
  have hsum : ((i : Int) + (c : Int)) = ((i + c : Nat) : Int) := by push_cast; ring
  rw [hsum, sliceIdx_nat, sliceIdx_nat, List.drop_take]
  rcases le_or_lt i f.length with hi | hi
  · rw [min_eq_left hi]
    rcases le_or_lt (i + c) f.length with hic | hic
    · rw [min_eq_left hic]
      congr 1
      omega
    · rw [min_eq_right (le_of_lt hic)]
      have h1 : (f.drop i).take (f.length - i) = f.drop i :=
        List.take_of_length_le (by rw [List.length_drop])
      have h2 : (f.drop i).take c = f.drop i :=
        List.take_of_length_le (by rw [List.length_drop]; omega)
      rw [h1, h2]
  · rw [min_eq_right (le_of_lt hi), min_eq_right (by omega : f.length ≤ i + c)]
    rw [List.drop_eq_nil_of_le (le_of_lt hi)]
    simp

/-! ## Error classification and shape of the parser's helpers -/

theorem clean_value_err {v : List Nat} {e : PyErr}
    (h : MultipartParser.clean_value v = .error e) : e = .indexError := by
  cases v with
  | nil =>
    simp only [MultipartParser.clean_value] at h
    injection h.symm
  | cons a t =>
    simp only [MultipartParser.clean_value] at h
    split_ifs at h

theorem headerPiece_err {acc : List (List Nat × List Nat)} {piece : List Nat}
    {e : PyErr} (h : headerPiece acc piece = .error e) : e = .indexError := by
  simp only [headerPiece] at h
  split at h
  · rename_i k val hsplit
    rcases hc : MultipartParser.clean_value val with e' | c
    · rw [hc] at h
      simp only [Bind.bind, Except.bind] at h
      injection h.symm with h2
      rw [h2]
      exact clean_value_err hc
    · rw [hc] at h
      simp [Bind.bind, Except.bind, pure, Except.pure] at h
  · simp [pure, Except.pure] at h

theorem foldlM_headerPiece_err :
    ∀ (l : List (List Nat)) (acc : List (List Nat × List Nat)) (e : PyErr),
      List.foldlM headerPiece acc l = .error e → e = .indexError := by
  intro l
  induction l with
  | nil =>
    intro acc e h
    simp [List.foldlM, pure, Except.pure] at h
  | cons x xs ih =>
    intro acc e h
    rw [List.foldlM_cons] at h
    rcases hx : headerPiece acc x with e' | acc'
    · rw [hx] at h
      simp only [Bind.bind, Except.bind] at h
      injection h.symm with h2
      rw [h2]
      exact headerPiece_err hx
    · rw [hx] at h
      simp only [Bind.bind, Except.bind] at h
      exact ih acc' e h

theorem parse_header_err {p : MultipartParser} {hdr : List Nat} {e : PyErr}
    (h : p.parse_header hdr = .error e) : e = .indexError := by
  simp only [MultipartParser.parse_header] at h
  rcases hf : List.foldlM headerPiece []
      (pySplit 59 (pyStrip (pyDropInt hdr
        ((match pyFind hdr contentDispositionMarker with
          | some i => (i : Int)
          | none => -1) + 31)))) with e' | parsed
  · rw [hf] at h
    simp only [Bind.bind, Except.bind] at h
    injection h.symm with h2
    rw [h2]
    exact foldlM_headerPiece_err _ _ _ hf
  · rw [hf] at h
    simp only [Bind.bind, Except.bind] at h
    split at h <;> simp [pure, Except.pure] at h

theorem parse_header_ok {p : MultipartParser} {hdr : List Nat}
    {q : MultipartParser} (h : p.parse_header hdr = .ok q) :
    q.data = p.data ∧ q.status = p.status ∧ q.temp_dir = p.temp_dir ∧
    q.in_memory_threshold = p.in_memory_threshold ∧
    q.start_boundary = p.start_boundary ∧
    q.boundary_length = p.boundary_length ∧
    q.end_boundary = p.end_boundary := by
  simp only [MultipartParser.parse_header] at h
  rcases hf : List.foldlM headerPiece []
      (pySplit 59 (pyStrip (pyDropInt hdr
        ((match pyFind hdr contentDispositionMarker with
          | some i => (i : Int)
          | none => -1) + 31)))) with e' | parsed
  · rw [hf] at h
    simp [Bind.bind, Except.bind] at h
  · rw [hf] at h
    simp only [Bind.bind, Except.bind] at h
    split at h
    · simp only [pure, Except.pure] at h
      injection h with h2
      subst h2
      exact ⟨rfl, rfl, rfl, rfl, rfl, rfl, rfl⟩
    · simp only [pure, Except.pure] at h
      injection h with h2
      subst h2
      exact ⟨rfl, rfl, rfl, rfl, rfl, rfl, rfl⟩

theorem smartWrite_err {sf : SmartFile} {data : List Nat} {e : PyErr}
    (h : sf.write data = .error e) : e = .typeError ∨ e = .attributeError := by
  unfold SmartFile.write at h
  split at h
  · split at h
    · injection h.symm with h2
      exact Or.inl h2
    · simp at h
  · split at h
    · simp at h
    · injection h.symm with h2
      exact Or.inr h2

theorem parserWrite_err {p : MultipartParser} {bs : List Nat} {e : PyErr}
    (h : parserWrite p bs = .error e) :
    e = .attributeError ∨ e = .keyError ∨ e = .typeError := by
  unfold parserWrite at h
  split at h
  · injection h.symm with h2
    exact Or.inl h2
  · split at h
    · injection h.symm with h2
      exact Or.inr (Or.inl h2)
    · rename_i pv sf hsf
      rcases hw : sf.write bs with e' | sf'
      · rw [hw] at h
        simp only [Except.map] at h
        injection h.symm with h2
        rw [h2]
        rcases smartWrite_err hw with h3 | h3
        · exact Or.inr (Or.inr h3)
        · exact Or.inl h3
      · rw [hw] at h
        simp [Except.map] at h

theorem parserWrite_ok {p : MultipartParser} {bs : List Nat}
    {q : MultipartParser} (h : parserWrite p bs = .ok q) :
    q.data = p.data ∧ q.status = p.status ∧
    q.current_buffer = p.current_buffer ∧ q.temp_dir = p.temp_dir ∧
    q.in_memory_threshold = p.in_memory_threshold ∧
    q.start_boundary = p.start_boundary ∧
    q.boundary_length = p.boundary_length ∧
    q.end_boundary = p.end_boundary := by
  unfold parserWrite at h
  split at h
  · simp at h
  · split at h
    · simp at h
    · rename_i pv sf hsf
      rcases hw : sf.write bs with e' | sf'
      · rw [hw] at h
        simp [Except.map] at h
      · rw [hw] at h
        simp only [Except.map] at h
        injection h with h2
        subst h2
        exact ⟨rfl, rfl, rfl, rfl, rfl, rfl, rfl, rfl⟩

theorem pyDropInt_nat (f : List Nat) (i : Nat) :
    pyDropInt f (i : Int) = f.drop i := by
  unfold pyDropInt
  rw [sliceIdx_nat]
  rcases le_or_lt i f.length with hi | hi
  · rw [min_eq_left hi]
  · rw [min_eq_right (le_of_lt hi)]
    rw [List.drop_eq_nil_of_le (le_refl _), List.drop_eq_nil_of_le (le_of_lt hi)]

end Gato

namespace Gato

/-! ## The loop step: frame preservation, quiescence, invariants -/

theorem step_frame {p q : MultipartParser}
    (h : step p = .ret q ∨ step p = .cont q) : frameEq p q := by
  unfold frameEq
  unfold step at h
  rcases h with h | h
  · -- ret cases
    split at h
    · injection h with h2; subst h2; exact ⟨rfl, rfl, rfl, rfl, rfl⟩
    · split at h
      · injection h with h2; subst h2; exact ⟨rfl, rfl, rfl, rfl, rfl⟩
      · split at h
        · -- expectingBoundary
          split at h
          · split at h
            · simp at h
            · simp at h
          · injection h with h2; subst h2; exact ⟨rfl, rfl, rfl, rfl, rfl⟩
        · -- expectingContentHeaders
          split at h
          · split at h
            · simp at h
            · simp at h
          · injection h with h2; subst h2; exact ⟨rfl, rfl, rfl, rfl, rfl⟩
        · -- expectingBuffer
          split at h
          · split at h
            · simp at h
            · simp at h
          · split at h
            · split at h
              · rename_i p' hpw
                injection h with h2
                subst h2
                obtain ⟨-, -, -, ht, hm, hs, hb, he⟩ := parserWrite_ok hpw
                exact ⟨ht, hm, hs, hb, he⟩
              · simp at h
            · injection h with h2; subst h2; exact ⟨rfl, rfl, rfl, rfl, rfl⟩
  · -- cont cases
    split at h
    · simp at h
    · split at h
      · simp at h
      · split at h
        · split at h
          · split at h
            · rename_i pos hfind
              injection h with h2
              subst h2
              exact ⟨rfl, rfl, rfl, rfl, rfl⟩
            · simp at h
          · simp at h
        · split at h
          · split at h
            · rename_i p' hph
              injection h with h2
              subst h2
              obtain ⟨-, -, ht, hm, hs, hb, he⟩ := parse_header_ok hph
              exact ⟨ht, hm, hs, hb, he⟩
            · simp at h
          · simp at h
        · split at h
          · split at h
            · rename_i p' hpw
              injection h with h2
              subst h2
              obtain ⟨-, -, -, ht, hm, hs, hb, he⟩ := parserWrite_ok hpw
              exact ⟨ht, hm, hs, hb, he⟩
            · simp at h
          · split at h
            · split at h
              · simp at h
              · simp at h
            · simp at h

end Gato

namespace Gato

theorem pyDropInt_neg (l : List Nat) (k : Nat) (hk : 1 ≤ k) :
    pyDropInt l (-(k : Int)) = l.drop (l.length - k) := by
  unfold pyDropInt sliceIdx
  rw [if_pos (by omega : -(k : Int) < 0)]
  congr 1
  omega

theorem quiescent_ret {p : MultipartParser} (h : Quiescent p) :
    step p = .ret p := by
  unfold step
  by_cases h0 : p.data = []
  · rw [if_pos h0]
  · rw [if_neg h0]
    by_cases h1 : p.data = p.end_boundary
    · rw [if_pos h1]
    · rw [if_neg h1]
      rcases h with h | h | ⟨hs, hlen⟩ | ⟨hs, hfind⟩ | ⟨hs, hfind, hlen⟩
      · exact absurd h h0
      · exact absurd h h1
      · simp only [hs]
        rw [if_neg (by omega : ¬ p.boundary_length ≤ p.data.length)]
      · simp only [hs, hfind]
      · simp only [hs, hfind]
        rw [if_neg (by omega : ¬ p.boundary_length * 40 ≤ p.data.length)]

theorem step_ret_quiescent {p q : MultipartParser}
    (hbl : 1 ≤ p.boundary_length) (h : step p = .ret q) : Quiescent q := by
  unfold step at h
  split at h
  · rename_i hdata
    injection h with h2
    subst h2
    exact Or.inl hdata
  · split at h
    · rename_i hend
      injection h with h2
      subst h2
      exact Or.inr (Or.inl hend)
    · split at h
      · rename_i hst
        split at h
        · split at h
          · simp at h
          · simp at h
        · rename_i hlen
          injection h with h2
          subst h2
          exact Or.inr (Or.inr (Or.inl ⟨hst, by omega⟩))
      · rename_i hst
        split at h
        · split at h
          · simp at h
          · simp at h
        · rename_i hfind
          injection h with h2
          subst h2
          exact Or.inr (Or.inr (Or.inr (Or.inl ⟨hst, hfind⟩)))
      · rename_i hst
        split at h
        · split at h
          · simp at h
          · simp at h
        · rename_i hfind
          split at h
          · rename_i hlen40
            split at h
            · rename_i p' hpw
              injection h with h2
              subst h2
              obtain ⟨hdata', hst', hcb', ht, hm, hsb, hbl', he⟩ := parserWrite_ok hpw
              refine Or.inr (Or.inr (Or.inr (Or.inr ⟨?_, ?_, ?_⟩)))
              · show p'.status = _
                rw [hst', hst]
              · show pyFind (pyDropInt p.data (-(p.boundary_length : Int)))
                  p'.start_boundary = none
                rw [hsb, pyDropInt_neg _ _ hbl]
                exact pyFind_drop_none hfind _
              · show (pyDropInt p.data (-(p.boundary_length : Int))).length <
                  p'.boundary_length * 40
                rw [hbl', pyDropInt_neg _ _ hbl, List.length_drop]
                omega
            · simp at h
          · rename_i hlen40
            injection h with h2
            subst h2
            exact Or.inr (Or.inr (Or.inr (Or.inr ⟨hst, hfind, by omega⟩)))

end Gato

namespace Gato

theorem step_cur {p q : MultipartParser} (hc : CurInv p)
    (h : step p = .ret q ∨ step p = .cont q) : CurInv q := by
  unfold step at h
  rcases h with h | h
  · split at h
    · injection h with h2; subst h2; exact hc
    · split at h
      · injection h with h2; subst h2; exact hc
      · split at h
        · split at h
          · split at h
            · simp at h
            · simp at h
          · injection h with h2; subst h2; exact hc
        · split at h
          · split at h
            · simp at h
            · simp at h
          · injection h with h2; subst h2; exact hc
        · rename_i hst
          split at h
          · split at h
            · simp at h
            · simp at h
          · split at h
            · split at h
              · rename_i p' hpw
                injection h with h2
                subst h2
                intro k _
                show p'.status = _
                rw [(parserWrite_ok hpw).2.1, hst]
              · simp at h
            · injection h with h2; subst h2; exact hc
  · split at h
    · simp at h
    · split at h
      · simp at h
      · split at h
        · rename_i hst
          split at h
          · split at h
            · injection h with h2
              subst h2
              intro k hk
              have h3 := hc k hk
              rw [hst] at h3
              exact absurd h3 (by simp)
            · simp at h
          · simp at h
        · split at h
          · split at h
            · rename_i p' hph
              injection h with h2
              subst h2
              intro k _
              rfl
            · simp at h
          · simp at h
        · split at h
          · split at h
            · rename_i p' hpw
              injection h with h2
              subst h2
              intro k hk
              exact absurd hk (by simp)
            · simp at h
          · split at h
            · split at h
              · simp at h
              · simp at h
            · simp at h

theorem step_valueError_intro {p : MultipartParser}
    (hne : p.data ≠ []) (hnend : p.data ≠ p.end_boundary)
    (hs : p.status = .expectingBoundary)
    (hlen : p.boundary_length ≤ p.data.length)
    (hfind : pyFind p.data p.start_boundary = none) :
    step p = .err .valueError := by
  unfold step
  rw [if_neg hne, if_neg hnend]
  simp only [hs]
  rw [if_pos hlen, hfind]

theorem step_valueError_elim {p : MultipartParser}
    (h : step p = .err .valueError) :
    p.status = .expectingBoundary ∧ p.boundary_length ≤ p.data.length ∧
    pyFind p.data p.start_boundary = none ∧ p.data ≠ [] ∧
    p.data ≠ p.end_boundary := by
  unfold step at h
  split at h
  · simp at h
  · rename_i hne
    split at h
    · simp at h
    · rename_i hnend
      split at h
      · rename_i hst
        split at h
        · rename_i hlen
          split at h
          · simp at h
          · rename_i hfind
            exact ⟨hst, hlen, hfind, hne, hnend⟩
        · simp at h
      · split at h
        · split at h
          · simp at h
          · rename_i e' hph
            injection h with h2
            rw [parse_header_err hph] at h2
            simp at h2
        · simp at h
      · split at h
        · split at h
          · simp at h
          · rename_i e' hpw
            injection h with h2
            subst h2
            rcases parserWrite_err hpw with h3 | h3 | h3 <;> simp at h3
        · split at h
          · split at h
            · simp at h
            · rename_i e' hpw
              injection h with h2
              subst h2
              rcases parserWrite_err hpw with h3 | h3 | h3 <;> simp at h3
          · simp at h

end Gato

namespace Gato

/-! ## The feed loop and reachable states -/

theorem frameEq_rfl (p : MultipartParser) : frameEq p p :=
  ⟨rfl, rfl, rfl, rfl, rfl⟩

theorem frameEq_trans {p q r : MultipartParser}
    (h1 : frameEq p q) (h2 : frameEq q r) : frameEq p r := by
  obtain ⟨a1, b1, c1, d1, e1⟩ := h1
  obtain ⟨a2, b2, c2, d2, e2⟩ := h2
  exact ⟨a2.trans a1, b2.trans b1, c2.trans c1, d2.trans d1, e2.trans e1⟩

theorem feedLoop_ok_quiescent :
    ∀ (f : Nat) (p q : MultipartParser), 1 ≤ p.boundary_length →
      feedLoop f p = .ok q → Quiescent q := by
  intro f
  induction f with
  | zero =>
    intro p q hbl h
    simp [feedLoop] at h
  | succ n ih =>
    intro p q hbl h
    simp only [feedLoop] at h
    rcases hs : step p with r | r | e <;> rw [hs] at h
    · injection h with h2
      subst h2
      exact step_ret_quiescent hbl hs
    · have hb := (step_frame (Or.inr hs)).2.2.2.1
      exact ih r q (by rw [hb]; exact hbl) h
    · simp at h

theorem feedLoop_frame :
    ∀ (f : Nat) (p q : MultipartParser), feedLoop f p = .ok q →
      frameEq p q := by
  intro f
  induction f with
  | zero =>
    intro p q h
    simp [feedLoop] at h
  | succ n ih =>
    intro p q h
    simp only [feedLoop] at h
    rcases hs : step p with r | r | e <;> rw [hs] at h
    · injection h with h2
      subst h2
      exact step_frame (Or.inl hs)
    · exact frameEq_trans (step_frame (Or.inr hs)) (ih r q h)
    · simp at h

theorem feedLoop_cur :
    ∀ (f : Nat) (p q : MultipartParser), CurInv p →
      feedLoop f p = .ok q → CurInv q := by
  intro f
  induction f with
  | zero =>
    intro p q hc h
    simp [feedLoop] at h
  | succ n ih =>
    intro p q hc h
    simp only [feedLoop] at h
    rcases hs : step p with r | r | e <;> rw [hs] at h
    · injection h with h2
      subst h2
      exact step_cur hc (Or.inl hs)
    · exact ih r q (step_cur hc (Or.inr hs)) h
    · simp at h

theorem feedLoop_quiescent_ok {p : MultipartParser} (h : Quiescent p) :
    ∀ f : Nat, 1 ≤ f → feedLoop f p = .ok p := by
  intro f hf
  cases f with
  | zero => omega
  | succ n =>
    simp only [feedLoop, quiescent_ret h]

theorem feedLoop_valueError :
    ∀ (f : Nat) (p : MultipartParser), feedLoop f p = .error .valueError →
      ∃ q, StepStar p q ∧ step q = .err .valueError := by
  intro f
  induction f with
  | zero =>
    intro p h
    simp only [feedLoop] at h
    injection h with h2
    simp at h2
  | succ n ih =>
    intro p h
    simp only [feedLoop] at h
    rcases hs : step p with r | r | e <;> rw [hs] at h
    · simp at h
    · obtain ⟨q, hstar, hq⟩ := ih r h
      exact ⟨q, StepStar.head p r q hs hstar, hq⟩
    · injection h with h2
      subst h2
      exact ⟨p, StepStar.refl p, hs⟩

theorem feed_ok_quiescent {p q : MultipartParser} {chunk : List Nat}
    (hbl : 1 ≤ p.boundary_length) (h : p.feed chunk = .ok q) : Quiescent q := by
  unfold MultipartParser.feed at h
  exact feedLoop_ok_quiescent _ _ _ (show 1 ≤ (⟨p.data ++ chunk, p.values,
    p.temp_dir, p.in_memory_threshold, p.start_boundary, p.boundary_length,
    p.end_boundary, p.status, p.current_buffer⟩ :
      MultipartParser).boundary_length from hbl) h

theorem feed_frame {p q : MultipartParser} {chunk : List Nat}
    (h : p.feed chunk = .ok q) : frameEq p q := by
  unfold MultipartParser.feed at h
  have h2 := feedLoop_frame _ _ _ h
  exact h2

theorem feed_cur {p q : MultipartParser} {chunk : List Nat}
    (hc : CurInv p) (h : p.feed chunk = .ok q) : CurInv q := by
  unfold MultipartParser.feed at h
  have h2 := feedLoop_cur _ _ _ (show CurInv ⟨p.data ++ chunk, p.values,
    p.temp_dir, p.in_memory_threshold, p.start_boundary, p.boundary_length,
    p.end_boundary, p.status, p.current_buffer⟩ from hc) h
  exact h2

theorem reachable_coh {p : MultipartParser} (h : Reachable p) : Coh p := by
  induction h with
  | base b td th =>
    refine ⟨by simp [MultipartParser.init], rfl, ?_⟩
    simp [MultipartParser.init]
  | next p q c hp hfeed ih =>
    obtain ⟨ht, hm, hs, hb, he⟩ := feed_frame hfeed
    obtain ⟨c1, c2, c3⟩ := ih
    refine ⟨hb ▸ c1, ?_, ?_⟩
    · rw [hb, hs, c2]
    · rw [he, hs, c3]

theorem reachable_quiescent {p : MultipartParser} (h : Reachable p) :
    Quiescent p := by
  induction h with
  | base b td th => exact Or.inl rfl
  | next p q c hp hfeed ih =>
    exact feed_ok_quiescent (by have := (reachable_coh hp).1; omega) hfeed

theorem reachable_cur {p : MultipartParser} (h : Reachable p) : CurInv p := by
  induction h with
  | base b td th =>
    intro k hk
    exact absurd hk (by simp [MultipartParser.init])
  | next p q c hp hfeed ih => exact feed_cur ih hfeed

end Gato

namespace Gato

theorem feedLoop_err_of_step {p : MultipartParser} {e : PyErr}
    (hstep : step p = .err e) :
    ∀ f : Nat, 1 ≤ f → feedLoop f p = .error e := by
  intro f hf
  cases f with
  | zero => omega
  | succ n => simp only [feedLoop, hstep]

/-! ## Claim theorems -/

/-- C10: for every parser state reachable by normally-returning `feed`
calls, feeding the empty chunk is an identity: it returns `ok` with the
status, pending data, `current_buffer` and registered field mapping all
unchanged (the whole state is returned unchanged). -/
theorem c10_empty_feed_identity (p : MultipartParser) (h : Reachable p) :
    p.feed [] = .ok p := by
  have hq := reachable_quiescent h
  unfold MultipartParser.feed
  rw [show ({ p with data := p.data ++ [] } : MultipartParser) = p by
    rw [List.append_nil]]
  exact feedLoop_quiescent_ok hq _ (by omega)

/-- Witness for C10 at a concrete reachable state (a fresh parser). -/
theorem c10_witness : pristine.feed [] = .ok pristine :=
  c10_empty_feed_identity pristine
    (Reachable.base (ascii "B") none parserDefaultThreshold)

/-- C5 (amended): one direction of the invariant holds at every reachable
state — `current_buffer` is set only while the status is
`EXPECTING_BUFFER`.  (The converse direction fails, see the
counterexample: after a header block without a `name` attribute the
status is `EXPECTING_BUFFER` with `current_buffer` absent.) -/
theorem c5_current_only_while_buffering (p : MultipartParser)
    (h : Reachable p) (k : List Nat) (hk : p.current_buffer = some k) :
    p.status = .expectingBuffer :=
  reachable_cur h k hk

/-- C5 counterexample: feeding a header block whose
`Content-Disposition` has no `name` attribute returns normally in a state
with status `EXPECTING_BUFFER` but no `current_buffer` — the claimed
"if and only if" invariant fails — and feeding that part's body then
raises `AttributeError` (`None.write`) instead of silently skipping. -/
theorem c5_counterexample :
    pristine.feed c5chunk = .ok c5Bad ∧
    c5Bad.status = .expectingBuffer ∧
    c5Bad.current_buffer = none ∧
    c5Bad.feed (ascii "body\r\n--B--\r\n") = .error .attributeError := by
  refine ⟨by decide, by decide, by decide, by decide⟩

/-- Witness for C5 at a concrete reachable mid-field state. -/
theorem c5_witness : c5P.status = .expectingBuffer :=
  c5_current_only_while_buffering c5P
    (Reachable.next pristine c5P c5chunkNamed
      (Reachable.base (ascii "B") none parserDefaultThreshold) (by decide))
    (ascii "a\x22") (by decide)

/-- C6: in state `EXPECTING_BOUNDARY`, (1) when fewer bytes than the
start-marker length are buffered, `feed` returns without error and without
consuming anything; (2) when at least marker-length bytes are buffered and
the marker is absent, `feed` raises the framing `ValueError`; and (3) the
framing error arises only from such a configuration: whenever `feed`
returns the framing error, the loop trace reaches a state in
`EXPECTING_BOUNDARY` with at least marker-length bytes buffered and no
marker present (and the error result carries no parsed values). -/
theorem c6_framing_error (p : MultipartParser) (chunk : List Nat)
    (hr : Reachable p) (hs : p.status = .expectingBoundary) :
    ((p.data ++ chunk).length < p.boundary_length →
      p.feed chunk = .ok { p with data := p.data ++ chunk }) ∧
    (p.boundary_length ≤ (p.data ++ chunk).length →
      pyFind (p.data ++ chunk) p.start_boundary = none →
      p.feed chunk = .error .valueError) ∧
    (p.feed chunk = .error .valueError →
      ∃ q, StepStar { p with data := p.data ++ chunk } q ∧
        q.status = .expectingBoundary ∧
        q.boundary_length ≤ q.data.length ∧
        pyFind q.data q.start_boundary = none) := by
  obtain ⟨hbl2, hbleq, hend⟩ := reachable_coh hr
  refine ⟨?_, ?_, ?_⟩
  · intro hlen
    unfold MultipartParser.feed
    refine feedLoop_quiescent_ok ?_ _ (by omega)
    exact Or.inr (Or.inr (Or.inl ⟨hs, hlen⟩))
  · intro hlen hfind
    unfold MultipartParser.feed
    refine feedLoop_err_of_step ?_ _ (by omega)
    apply step_valueError_intro
    · intro hnil
      have hnil' : p.data ++ chunk = [] := hnil
      have h0 : (p.data ++ chunk).length = 0 := by rw [hnil']; rfl
      omega
    · intro heq
      have heq' : p.data ++ chunk = p.end_boundary := heq
      rw [heq', hend, pyFind_self_append] at hfind
      exact absurd hfind (by simp)
    · exact hs
    · exact hlen
    · exact hfind
  · intro herr
    unfold MultipartParser.feed at herr
    obtain ⟨q, hstar, hq⟩ := feedLoop_valueError _ _ herr
    obtain ⟨a, b, c, _, _⟩ := step_valueError_elim hq
    exact ⟨q, hstar, a, b, c⟩

/-- Witness for C6: a fresh parser fed `X--` (three bytes, no marker)
raises the framing error, by the theorem's second conjunct. -/
theorem c6_witness : pristine.feed (ascii "X--") = .error .valueError :=
  (c6_framing_error pristine (ascii "X--")
    (Reachable.base (ascii "B") none parserDefaultThreshold) rfl).2.1
    (by decide) (by decide)

end Gato

namespace Gato

/-- C9 (amended): for a positive `count`, `MemoryFile.read` returns at
most `count` bytes starting at the cursor, but advances the cursor by
exactly `count` — the full requested amount, not the number of bytes
actually returned — so after a short read the cursor can exceed the
content length; a subsequent read nevertheless returns empty, because
Python slicing clamps. -/
theorem c9_read_cursor (fn : Option (List Nat)) (f : List Nat)
    (i count : Nat) (hc : 0 < count) :
    (MemoryFile.read ⟨fn, f, (i : Int)⟩ (count : Int)).1 =
      (f.drop i).take count ∧
    (MemoryFile.read ⟨fn, f, (i : Int)⟩ (count : Int)).2 =
      ⟨fn, f, (i : Int) + (count : Int)⟩ ∧
    (MemoryFile.read ⟨fn, f, (i : Int)⟩ (count : Int)).1.length ≤ count ∧
    (f.length ≤ i + count →
      ∀ c2 : Int,
        (MemoryFile.read ⟨fn, f, (i : Int) + (count : Int)⟩ c2).1 = []) := by
  have hne : ((count : Int) ≠ 0) := by omega
  have hcast : ((i : Int) + (count : Int)) = (((i + count : Nat)) : Int) := by
    push_cast
    ring
  refine ⟨?_, ?_, ?_, ?_⟩
  · simp only [MemoryFile.read, if_pos hne]
    exact pySlice_nat f i count
  · simp only [MemoryFile.read, if_pos hne]
  · simp only [MemoryFile.read, if_pos hne]
    rw [pySlice_nat f i count, List.length_take]
    exact min_le_left _ _
  · intro hlen c2
    have hlo : sliceIdx f.length ((i : Int) + (count : Int)) = f.length := by
      rw [hcast, sliceIdx_nat]
      omega
    rcases eq_or_ne c2 0 with hc2 | hc2
    · subst hc2
      simp only [MemoryFile.read, if_neg (by omega : ¬ ((0 : Int) ≠ 0))]
      unfold pyDropInt
      rw [hlo]
      exact List.drop_length f
    · simp only [MemoryFile.read, if_pos hc2]
      unfold pySlice
      apply List.drop_eq_nil_of_le
      rw [hlo, List.length_take]
      exact min_le_right _ _

/-- Witness for C9 at a concrete input: reading 5 bytes from a 2-byte
file. -/
theorem c9_witness :
    (MemoryFile.read ⟨none, ascii "hi", ((0 : Nat) : Int)⟩ ((5 : Nat) : Int)).2 =
      ⟨none, ascii "hi", ((0 : Nat) : Int) + ((5 : Nat) : Int)⟩ :=
  (c9_read_cursor none (ascii "hi") 0 5 (by decide)).2.1

/-- C9 counterexample: reading 5 bytes from a 2-byte `MemoryFile` returns
2 bytes but leaves the cursor at 5, not at the content length 2, refuting
"advances the cursor by the number of bytes actually returned ... the
cursor afterwards equals the content length". -/
theorem c9_counterexample :
    (MemoryFile.read ⟨none, ascii "hi", 0⟩ 5).1.length = 2 ∧
    (MemoryFile.read ⟨none, ascii "hi", 0⟩ 5).2.pointer = 5 ∧
    (MemoryFile.read ⟨none, ascii "hi", 0⟩ 5).2.pointer ≠
      ((ascii "hi").length : Int) := by
  refine ⟨by decide, by decide, by decide⟩

/-- C1 (amended): feeding the spec's concrete scenario body as a single
chunk and consuming yields the field body text `hello` exactly, but under
the key `field1"` — the trailing quote of the quoted name survives,
because `clean_value` strips a leading quote and only strips a trailing
one when there is no leading one; in general, every value starting with a
quote loses exactly its first byte. -/
theorem c1_text_field :
    runWhole c1Body =
      .ok [(ascii "field1\x22", UploadValue.text (ascii "hello"))] ∧
    (∀ rest : List Nat, MultipartParser.clean_value (34 :: rest) = .ok rest) := by
  refine ⟨by decide, ?_⟩
  intro rest
  simp [MultipartParser.clean_value]

/-- C1 counterexample: the mapping is not `{"field1": "hello"}` as
claimed (the key differs). -/
theorem c1_counterexample :
    runWhole c1Body ≠
      .ok [(ascii "field1", UploadValue.text (ascii "hello"))] := by
  decide

-- The two halves of the C2 counterexample, one declaration each
-- (the flush run is expensive to evaluate).
set_option maxRecDepth 4000 in
set_option maxHeartbeats 40000000 in
theorem c2_flush_whole : runWhole flushBody = .ok flushMapWhole := by
  decide

set_option maxRecDepth 4000 in
set_option maxHeartbeats 40000000 in
theorem c2_flush_split : runSplit flushBody 171 = .ok flushMapSplit := by
  decide

/-- C2 counterexample, two independent failures.  (a) Preamble: `preBody`
(preamble `X` + CRLF + `scenarioBody`) fed whole parses fine, but the
partition into `X\r\n` and the rest raises the framing `ValueError` on
its very first chunk (three bytes buffered, at least the marker length,
no marker), so the partitioned feeding has no `consume()` mapping at all.
(b) Flush: `flushBody` fed whole yields the 118-byte field content, but
split at byte 171 the large-buffer flush fires first (122 pending bytes,
no marker) and flushes the field's trailing `\r` along with the content;
when the marker then completes at position 1 of the retained tail,
`pending[:position - 2]` is the Python negative slice `[:-1]` and writes
CRLF and end-marker bytes into the field — the two feeds return
different mappings, refuting in particular "the large-buffer flush never
changes the bytes written to the active field". -/
theorem c2_counterexample :
    (preBody.take 3 = ascii "X\r\n" ∧
      runWhole preBody = .ok scenarioMapping ∧
      pristine.feed (preBody.take 3) = .error .valueError) ∧
    (runWhole flushBody = .ok flushMapWhole ∧
      runSplit flushBody 171 = .ok flushMapSplit ∧
      runSplit flushBody 171 ≠ runWhole flushBody) := by
  refine ⟨⟨by decide, by decide, by decide⟩,
    c2_flush_whole, c2_flush_split, ?_⟩
  intro h
  rw [c2_flush_whole, c2_flush_split] at h
  exact absurd h (by decide)

-- The 61 theorems below are the split points of the exhaustive
-- two-chunk check for C2, one declaration each to keep elaboration cheap.
set_option maxHeartbeats 1000000 in
theorem c2_split_0 : runSplit scenarioBody 0 = .ok scenarioMapping := by
  decide

set_option maxHeartbeats 1000000 in
theorem c2_split_1 : runSplit scenarioBody 1 = .ok scenarioMapping := by
  decide

set_option maxHeartbeats 1000000 in
theorem c2_split_2 : runSplit scenarioBody 2 = .ok scenarioMapping := by
  decide

set_option maxHeartbeats 1000000 in
theorem c2_split_3 : runSplit scenarioBody 3 = .ok scenarioMapping := by
  decide

set_option maxHeartbeats 1000000 in
theorem c2_split_4 : runSplit scenarioBody 4 = .ok scenarioMapping := by
  decide

set_option maxHeartbeats 1000000 in
theorem c2_split_5 : runSplit scenarioBody 5 = .ok scenarioMapping := by
  decide

set_option maxHeartbeats 1000000 in
theorem c2_split_6 : runSplit scenarioBody 6 = .ok scenarioMapping := by
  decide

set_option maxHeartbeats 1000000 in
theorem c2_split_7 : runSplit scenarioBody 7 = .ok scenarioMapping := by
  decide

set_option maxHeartbeats 1000000 in
theorem c2_split_8 : runSplit scenarioBody 8 = .ok scenarioMapping := by
  decide

set_option maxHeartbeats 1000000 in
theorem c2_split_9 : runSplit scenarioBody 9 = .ok scenarioMapping := by
  decide

set_option maxHeartbeats 1000000 in
theorem c2_split_10 : runSplit scenarioBody 10 = .ok scenarioMapping := by
  decide

set_option maxHeartbeats 1000000 in
theorem c2_split_11 : runSplit scenarioBody 11 = .ok scenarioMapping := by
  decide

set_option maxHeartbeats 1000000 in
theorem c2_split_12 : runSplit scenarioBody 12 = .ok scenarioMapping := by
  decide

set_option maxHeartbeats 1000000 in
theorem c2_split_13 : runSplit scenarioBody 13 = .ok scenarioMapping := by
  decide

set_option maxHeartbeats 1000000 in
theorem c2_split_14 : runSplit scenarioBody 14 = .ok scenarioMapping := by
  decide

set_option maxHeartbeats 1000000 in
theorem c2_split_15 : runSplit scenarioBody 15 = .ok scenarioMapping := by
  decide

set_option maxHeartbeats 1000000 in
theorem c2_split_16 : runSplit scenarioBody 16 = .ok scenarioMapping := by
  decide

set_option maxHeartbeats 1000000 in
theorem c2_split_17 : runSplit scenarioBody 17 = .ok scenarioMapping := by
  decide

set_option maxHeartbeats 1000000 in
theorem c2_split_18 : runSplit scenarioBody 18 = .ok scenarioMapping := by
  decide

set_option maxHeartbeats 1000000 in
theorem c2_split_19 : runSplit scenarioBody 19 = .ok scenarioMapping := by
  decide

set_option maxHeartbeats 1000000 in
theorem c2_split_20 : runSplit scenarioBody 20 = .ok scenarioMapping := by
  decide

set_option maxHeartbeats 1000000 in
theorem c2_split_21 : runSplit scenarioBody 21 = .ok scenarioMapping := by
  decide

set_option maxHeartbeats 1000000 in
theorem c2_split_22 : runSplit scenarioBody 22 = .ok scenarioMapping := by
  decide

set_option maxHeartbeats 1000000 in
theorem c2_split_23 : runSplit scenarioBody 23 = .ok scenarioMapping := by
  decide

set_option maxHeartbeats 1000000 in
theorem c2_split_24 : runSplit scenarioBody 24 = .ok scenarioMapping := by
  decide

set_option maxHeartbeats 1000000 in
theorem c2_split_25 : runSplit scenarioBody 25 = .ok scenarioMapping := by
  decide

set_option maxHeartbeats 1000000 in
theorem c2_split_26 : runSplit scenarioBody 26 = .ok scenarioMapping := by
  decide

set_option maxHeartbeats 1000000 in
theorem c2_split_27 : runSplit scenarioBody 27 = .ok scenarioMapping := by
  decide

set_option maxHeartbeats 1000000 in
theorem c2_split_28 : runSplit scenarioBody 28 = .ok scenarioMapping := by
  decide

set_option maxHeartbeats 1000000 in
theorem c2_split_29 : runSplit scenarioBody 29 = .ok scenarioMapping := by
  decide

set_option maxHeartbeats 1000000 in
theorem c2_split_30 : runSplit scenarioBody 30 = .ok scenarioMapping := by
  decide

set_option maxHeartbeats 1000000 in
theorem c2_split_31 : runSplit scenarioBody 31 = .ok scenarioMapping := by
  decide

set_option maxHeartbeats 1000000 in
theorem c2_split_32 : runSplit scenarioBody 32 = .ok scenarioMapping := by
  decide

set_option maxHeartbeats 1000000 in
theorem c2_split_33 : runSplit scenarioBody 33 = .ok scenarioMapping := by
  decide

set_option maxHeartbeats 1000000 in
theorem c2_split_34 : runSplit scenarioBody 34 = .ok scenarioMapping := by
  decide

set_option maxHeartbeats 1000000 in
theorem c2_split_35 : runSplit scenarioBody 35 = .ok scenarioMapping := by
  decide

set_option maxHeartbeats 1000000 in
theorem c2_split_36 : runSplit scenarioBody 36 = .ok scenarioMapping := by
  decide

set_option maxHeartbeats 1000000 in
theorem c2_split_37 : runSplit scenarioBody 37 = .ok scenarioMapping := by
  decide

set_option maxHeartbeats 1000000 in
theorem c2_split_38 : runSplit scenarioBody 38 = .ok scenarioMapping := by
  decide

set_option maxHeartbeats 1000000 in
theorem c2_split_39 : runSplit scenarioBody 39 = .ok scenarioMapping := by
  decide

set_option maxHeartbeats 1000000 in
theorem c2_split_40 : runSplit scenarioBody 40 = .ok scenarioMapping := by
  decide

set_option maxHeartbeats 1000000 in
theorem c2_split_41 : runSplit scenarioBody 41 = .ok scenarioMapping := by
  decide

set_option maxHeartbeats 1000000 in
theorem c2_split_42 : runSplit scenarioBody 42 = .ok scenarioMapping := by
  decide

set_option maxHeartbeats 1000000 in
theorem c2_split_43 : runSplit scenarioBody 43 = .ok scenarioMapping := by
  decide

set_option maxHeartbeats 1000000 in
theorem c2_split_44 : runSplit scenarioBody 44 = .ok scenarioMapping := by
  decide

set_option maxHeartbeats 1000000 in
theorem c2_split_45 : runSplit scenarioBody 45 = .ok scenarioMapping := by
  decide

set_option maxHeartbeats 1000000 in
theorem c2_split_46 : runSplit scenarioBody 46 = .ok scenarioMapping := by
  decide

set_option maxHeartbeats 1000000 in
theorem c2_split_47 : runSplit scenarioBody 47 = .ok scenarioMapping := by
  decide

set_option maxHeartbeats 1000000 in
theorem c2_split_48 : runSplit scenarioBody 48 = .ok scenarioMapping := by
  decide

set_option maxHeartbeats 1000000 in
theorem c2_split_49 : runSplit scenarioBody 49 = .ok scenarioMapping := by
  decide

set_option maxHeartbeats 1000000 in
theorem c2_split_50 : runSplit scenarioBody 50 = .ok scenarioMapping := by
  decide

set_option maxHeartbeats 1000000 in
theorem c2_split_51 : runSplit scenarioBody 51 = .ok scenarioMapping := by
  decide

set_option maxHeartbeats 1000000 in
theorem c2_split_52 : runSplit scenarioBody 52 = .ok scenarioMapping := by
  decide

set_option maxHeartbeats 1000000 in
theorem c2_split_53 : runSplit scenarioBody 53 = .ok scenarioMapping := by
  decide

set_option maxHeartbeats 16000000 in
theorem c2_split_54 : runSplit scenarioBody 54 = .ok scenarioMapping := by
  decide

set_option maxHeartbeats 16000000 in
theorem c2_split_55 : runSplit scenarioBody 55 = .ok scenarioMapping := by
  decide

set_option maxHeartbeats 16000000 in
theorem c2_split_56 : runSplit scenarioBody 56 = .ok scenarioMapping := by
  decide

set_option maxHeartbeats 16000000 in
theorem c2_split_57 : runSplit scenarioBody 57 = .ok scenarioMapping := by
  decide

set_option maxHeartbeats 16000000 in
theorem c2_split_58 : runSplit scenarioBody 58 = .ok scenarioMapping := by
  decide

set_option maxHeartbeats 16000000 in
theorem c2_split_59 : runSplit scenarioBody 59 = .ok scenarioMapping := by
  decide

set_option maxHeartbeats 16000000 in
theorem c2_split_60 : runSplit scenarioBody 60 = .ok scenarioMapping := by
  decide

/-- C2 (amended): chunk-invariance as stated fails in two ways (see the
counterexample: a preamble partition can hit the framing error, and a
partition triggering the large-buffer flush can corrupt the written
bytes); for the preamble-free scenario body, too short for the flush, it
holds for every partition into two chunks, verified exhaustively: all 61
splits of the 60-byte body produce the same `consume()` mapping as the
single-chunk feed. -/
theorem c2_two_chunk_invariance :
    scenarioBody.length = 60 ∧
    runWhole scenarioBody = .ok scenarioMapping ∧
    (∀ i : Nat, i ≤ 60 → runSplit scenarioBody i = .ok scenarioMapping) := by
  refine ⟨by decide, by decide, ?_⟩
  intro i hi
  interval_cases i
  · exact c2_split_0
  · exact c2_split_1
  · exact c2_split_2
  · exact c2_split_3
  · exact c2_split_4
  · exact c2_split_5
  · exact c2_split_6
  · exact c2_split_7
  · exact c2_split_8
  · exact c2_split_9
  · exact c2_split_10
  · exact c2_split_11
  · exact c2_split_12
  · exact c2_split_13
  · exact c2_split_14
  · exact c2_split_15
  · exact c2_split_16
  · exact c2_split_17
  · exact c2_split_18
  · exact c2_split_19
  · exact c2_split_20
  · exact c2_split_21
  · exact c2_split_22
  · exact c2_split_23
  · exact c2_split_24
  · exact c2_split_25
  · exact c2_split_26
  · exact c2_split_27
  · exact c2_split_28
  · exact c2_split_29
  · exact c2_split_30
  · exact c2_split_31
  · exact c2_split_32
  · exact c2_split_33
  · exact c2_split_34
  · exact c2_split_35
  · exact c2_split_36
  · exact c2_split_37
  · exact c2_split_38
  · exact c2_split_39
  · exact c2_split_40
  · exact c2_split_41
  · exact c2_split_42
  · exact c2_split_43
  · exact c2_split_44
  · exact c2_split_45
  · exact c2_split_46
  · exact c2_split_47
  · exact c2_split_48
  · exact c2_split_49
  · exact c2_split_50
  · exact c2_split_51
  · exact c2_split_52
  · exact c2_split_53
  · exact c2_split_54
  · exact c2_split_55
  · exact c2_split_56
  · exact c2_split_57
  · exact c2_split_58
  · exact c2_split_59
  · exact c2_split_60

/-- Witness for C2's amended theorem at a concrete split. -/
theorem c2_witness : runSplit scenarioBody 7 = .ok scenarioMapping :=
  c2_two_chunk_invariance.2.2 7 (by decide)

end Gato

namespace Gato

/-- C3: with threshold 4, writing 3 bytes (one below) or 4 bytes (exactly
at) keeps the field in memory, `consume()` yields a `MemoryFile`, and
`read()` on it returns exactly the bytes written; but the write taking the
total one above the threshold raises `TypeError` — the spill constructs
`DiskFile(..., temporary_dir=...)` although the constructor's parameter is
`temp_directory` — so no disk-backed result is ever produced (and
`DiskFile.read` would fail anyway, slicing the never-assigned `self.file`).
This theorem evaluates the code at the failing input. -/
theorem c3_threshold_boundary :
    (c3sf.write (ascii "abc") =
        .ok { c3sf with buffer := ascii "abc", pointer := 3 } ∧
      SmartFile.consume { c3sf with buffer := ascii "abc", pointer := 3 } =
        .ok (.memory ⟨some (ascii "a.txt"), ascii "abc", 0⟩) ∧
      (MemoryFile.read ⟨some (ascii "a.txt"), ascii "abc", 0⟩ 0).1 =
        ascii "abc") ∧
    (c3sf.write (ascii "abcd") =
        .ok { c3sf with buffer := ascii "abcd", pointer := 4 } ∧
      SmartFile.consume { c3sf with buffer := ascii "abcd", pointer := 4 } =
        .ok (.memory ⟨some (ascii "a.txt"), ascii "abcd", 0⟩) ∧
      (MemoryFile.read ⟨some (ascii "a.txt"), ascii "abcd", 0⟩ 0).1 =
        ascii "abcd") ∧
    c3sf.write (ascii "abcde") = .error .typeError ∧
    DiskFile.read (DiskFile.init (some (ascii "a.txt")) none "u") 0 =
      .error .attributeError := by
  refine ⟨⟨by decide, by decide, by decide⟩,
    ⟨by decide, by decide, by decide⟩, by decide, by decide⟩

/-- C4: on the threshold-crossing `write` call the source raises
`TypeError` at `DiskFile(filename=..., temporary_dir=...)` (the
constructor's parameter is `temp_directory`), before any buffer is
flushed and before `in_memory` is cleared — so the claimed
"entire buffer written into a new `DiskFile`, `in_memory` becomes false,
triggering chunk written on the next call" never happens, and the
triggering bytes are lost with the exception.  This theorem evaluates the
code at the failing input. -/
theorem c4_spill_crossing :
    c4sf.write (ascii "abc") = .ok c4sf1 ∧
    c4sf1.in_memory = true ∧
    c4sf1.buffer = ascii "abc" ∧
    c4sf1.write (ascii "de") = .error .typeError := by
  refine ⟨by decide, by decide, by decide, by decide⟩

/-- C7: teardown with `delete_on_exit` still true does **not** remove the
temp file: `__del__` reads `self.temporary_path`, an attribute never
assigned (`__init__` assigns `temp_path`), so the deletion attempt dies
with `AttributeError` — which the `except FileNotFoundError` clause does
not swallow — before `os.remove` can run.  The second half of the claim
does hold: `save` clears `delete_on_exit`, after which teardown removes
nothing.  This theorem evaluates the code at the failing input. -/
theorem c7_teardown :
    c7d.delete_on_exit = true ∧
    c7d.del c7fs = .error .attributeError ∧
    fsGet c7fs c7d.temp_path = some [1, 2, 3] ∧
    DiskFile.save c7d "/dest" c7fs = .ok (c7dSaved, c7fsSaved) ∧
    c7dSaved.delete_on_exit = false ∧
    c7dSaved.del c7fsSaved = .ok c7fsSaved := by
  refine ⟨by decide, by decide, by decide, by decide, by decide, by decide⟩

/-- C8: the parser ignores its configuration when building the per-field
`SmartFile`.  `__init__` assigns `self.temp_dir = None` (discarding the
`temp_dir` argument) and `parse_header` creates
`SmartFile(filename=..., temp_dir=self.temp_dir)` without passing
`in_memory_limit`, so every parser-created `SmartFile` gets temp dir
`None` and the standalone default of 10 MiB — the parser's configured
threshold (here 5; its signature default is 1 MiB) is stored but never
used.  This theorem evaluates the code at the failing input. -/
theorem c8_per_field_smartfile :
    c8P.temp_dir = none ∧
    c8P.in_memory_threshold = 5 ∧
    c8info = .ok (some (none, smartFileDefaultLimit)) ∧
    smartFileDefaultLimit = 10 * 1024 * 1024 ∧
    parserDefaultThreshold = 1 * 1024 * 1024 := by
  refine ⟨by decide, by decide, by decide, by decide, by decide⟩

end Gato
